import Mathlib

/-!
Verification of the resilient policy resolution subsystem of the
reimbursement agent (src/endpoints/policyStore.py, src/utils/retry_handler.py,
src/utils/confluence_client.py), shallowly embedded in Lean 4.

Conventions of the embedding:
* Python floats used for money amounts and Unix timestamps become `ℚ`
  (the code does only comparisons, subtraction and division on them).
* Python dict lookups with `.get(key, default)` become `Option` fields
  with `Option.getD`.
* The mutable module-level caches `policy_cache` and `_last_known_good`
  become an explicit `CacheState` value threaded through `get_policy`.
* Raising exceptions becomes `Except`; the shape of the raised error is
  captured by a small error enumeration where the claims depend on it.
* Side effects relevant to the claims are returned as explicit traces:
  the outbound Confluence API calls made (`CallEvent`) and the
  `degradation_level` fields attached to log records (`tags`).
* `list(set(aliases))` deduplicates in an order Python does not specify;
  the embedding fixes first-occurrence order via `List.eraseDups`.
* Parsing failures of numeric table cells (`float(...)` / `int(...)` in the
  row loop) raise inside the same `try` block as the index fetch and are
  therefore observationally a failed fetch; the embedding folds them into
  the index oracle's error case.
-/

/-! ## Data model (src/models/schemas.py) -/

/-- One entry of `EnrichmentRules.time_based`: a raw dict whose
`start_hour` / `end_hour` keys may be missing (validation only warns). -/
structure TimeRule where
  start_hour : Option Int
  end_hour : Option Int
  subcategory : String
deriving DecidableEq, Repr

/-- schemas.EnrichmentRules: both fields are `Optional` in pydantic. -/
structure EnrichmentRules where
  time_based : Option (List TimeRule)
  vendor_keywords : Option (List String)
deriving DecidableEq, Repr

/-- schemas.ValidationRules. -/
structure ValidationRules where
  max_amount : ℚ
  currency : String
  requires_receipt : Bool
  requires_attendees : Bool
  max_age_days : Int
  approved_vendors : Option (List String)
deriving DecidableEq, Repr

/-- schemas.CategoryDefinition. -/
structure CategoryDefinition where
  name : String
  aliases : List String
  enrichment_rules : EnrichmentRules
  validation_rules : ValidationRules
deriving DecidableEq, Repr

/-- schemas.PolicyData. -/
structure PolicyData where
  company_id : String
  effective_date : String
  categories : List CategoryDefinition
  default_category : String
  cache_ttl : Int
deriving DecidableEq, Repr

/-! ## CircuitBreaker (src/utils/retry_handler.py, lines 8-53) -/

inductive CBState where
  | closed
  | opened
  | halfOpen
deriving DecidableEq, Repr

/-- The mutable fields of a `CircuitBreaker` instance. `last_failure_time`
is `None` until the first failure. -/
structure Breaker where
  failure_count : Nat
  failure_threshold : Nat
  timeout_duration : ℚ
  last_failure_time : Option ℚ
  state : CBState
deriving DecidableEq, Repr

/-- `CircuitBreaker.__init__`. -/
def initBreaker (failure_threshold : Nat) (timeout_duration : ℚ) : Breaker :=
  { failure_count := 0
    failure_threshold := failure_threshold
    timeout_duration := timeout_duration
    last_failure_time := none
    state := CBState.closed }

inductive CBErr where
  | circuitOpen
  | opFailed
deriving DecidableEq, Repr

deriving instance DecidableEq for Except

structure CallResult (A : Type) where
  result : Except CBErr A
  breaker : Breaker
  invoked : Bool
deriving DecidableEq, Repr

/-- The `try`-body of `CircuitBreaker.call`: invoke the wrapped function
once and update breaker state from the outcome (lines 29-53). -/
def Breaker.callBody {A : Type} (b : Breaker) (now : ℚ) (op : Except Unit A) :
    CallResult A :=
  match op with
  | Except.ok a =>
    let b1 := if b.state = CBState.halfOpen then { b with state := CBState.closed } else b
    { result := Except.ok a
      breaker := { b1 with failure_count := 0 }
      invoked := true }
  | Except.error _ =>
    let fc := b.failure_count + 1
    let b1 := { b with failure_count := fc, last_failure_time := some now }
    let b2 := if fc ≥ b.failure_threshold then { b1 with state := CBState.opened } else b1
    { result := Except.error CBErr.opFailed
      breaker := b2
      invoked := true }

/-- `CircuitBreaker.call` (lines 18-53).  In the `OPEN` state within the
cooldown the wrapped function is not invoked at all; `last_failure_time`
is always set when the state is `OPEN`, so `getD 0` is never the value
actually compared. -/
def Breaker.call {A : Type} (b : Breaker) (now : ℚ) (op : Except Unit A) :
    CallResult A :=
  if b.state = CBState.opened then
    if now - (b.last_failure_time.getD 0) > b.timeout_duration then
      Breaker.callBody { b with state := CBState.halfOpen } now op
    else
      { result := Except.error CBErr.circuitOpen, breaker := b, invoked := false }
  else
    Breaker.callBody b now op

/-- A sequence of calls whose wrapped operation fails every time, made at
the given instants. -/
def applyFails (b : Breaker) : List ℚ → Breaker
  | [] => b
  | t :: ts => applyFails (Breaker.call b t (Except.error () : Except Unit Unit)).breaker ts

/-! ## RetryPolicy (src/utils/retry_handler.py, lines 61-142) -/

/-- How one invocation of the wrapped operation ends, mirroring the three
`except` arms of `retry_on_network_error`: `transientErr` stands for
`ConnectionError | TimeoutError | OSError`, `deterministicErr` for
`ValueError | KeyError | AttributeError`, `unknownErr` for any other
exception. -/
inductive AttemptOutcome (A : Type) where
  | ok (a : A)
  | transientErr
  | deterministicErr
  | unknownErr
deriving DecidableEq, Repr

/-- What the retry wrapper as a whole does: return a value or re-raise a
transient / deterministic / unknown / wrapper-timeout error.  `raisedNone`
models `raise last_exception` with `last_exception = None`, reachable only
when `max_attempts = 0`. -/
inductive RetryResult (A : Type) where
  | ok (a : A)
  | transient
  | deterministic
  | unknown
  | timedOut
  | raisedNone
deriving DecidableEq, Repr

structure RetryOut (A : Type) where
  result : RetryResult A
  invocations : Nat
  sleeps : Nat
deriving DecidableEq, Repr

/-- The `for attempt in range(max_attempts)` loop of the `wrapper` inner
function, with the wall clock made explicit: `op i` is how the `i`-th
invocation ends, `dur i` how long it takes, `elapsed` the value
`time.time() - start_time` would have at the next loop-top check.
Arguments after `timeout`: current attempt index, remaining iterations,
elapsed time, invocation count, sleep count, whether `last_exception`
has been set. -/
def retryGo {A : Type} (op : Nat → AttemptOutcome A) (dur : Nat → ℚ)
    (maxAttempts : Nat) (delay timeout : ℚ) :
    Nat → Nat → ℚ → Nat → Nat → Bool → RetryOut A
  | _, 0, _, inv, sl, hasLast =>
    { result := if hasLast then RetryResult.transient else RetryResult.raisedNone
      invocations := inv, sleeps := sl }
  | i, r + 1, elapsed, inv, sl, _ =>
    if elapsed > timeout then { result := RetryResult.timedOut, invocations := inv, sleeps := sl }
    else
      match op i with
      | AttemptOutcome.ok a => { result := RetryResult.ok a, invocations := inv + 1, sleeps := sl }
      | AttemptOutcome.deterministicErr =>
        { result := RetryResult.deterministic, invocations := inv + 1, sleeps := sl }
      | AttemptOutcome.unknownErr =>
        { result := RetryResult.unknown, invocations := inv + 1, sleeps := sl }
      | AttemptOutcome.transientErr =>
        if i < maxAttempts - 1 then
          retryGo op dur maxAttempts delay timeout (i + 1) r (elapsed + dur i + delay) (inv + 1) (sl + 1) true
        else
          retryGo op dur maxAttempts delay timeout (i + 1) r (elapsed + dur i) (inv + 1) sl true

/-- `retry_on_network_error(max_attempts, delay_seconds, timeout_seconds)`
applied to an operation, as a function of the operation's behaviour. -/
def retryLoop {A : Type} (op : Nat → AttemptOutcome A) (dur : Nat → ℚ)
    (maxAttempts : Nat) (delay timeout : ℚ) : RetryOut A :=
  retryGo op dur maxAttempts delay timeout 0 maxAttempts 0 0 0 false

/-- `time.time() - start_time` at the top of iteration `k`, when every
earlier attempt raised a transient error and slept: the durations of
attempts `0..k-1` plus `k` sleeps of `delay`. -/
def elapsedBefore (dur : Nat → ℚ) (delay : ℚ) : Nat → ℚ
  | 0 => 0
  | k + 1 => elapsedBefore dur delay k + dur k + delay

/-! ## Remote policy source oracle (src/utils/confluence_client.py)

`get_policy` talks to the Confluence client through two methods:
`get_policy_index()` (the table of `{Category, Aliases, Max Amount,
Currency, Receipt Required, Attendees Required, Max Age Days}` rows, each
a dict of strings that may lack any key) and `get_category_details(name)`.
The oracle fixes their outcomes for one resolution; `Except.error` stands
for any exception the client raises. -/

/-- One row of the policy index table, post numeric conversion.  A field
is `none` when the corresponding key is absent from the row dict; the
`getD` defaults in `buildCategory` mirror the `.get(key, default)` calls
of the source. -/
structure IndexRow where
  category : Option String
  aliases : Option String
  maxAmount : Option ℚ
  currency : Option String
  receiptRequired : Option String
  attendeesRequired : Option String
  maxAgeDays : Option Int
deriving DecidableEq, Repr

/-- The `validation_rules` JSON block of a category detail page; each
field is present only when the corresponding key is in the dict. -/
structure DetailRules where
  max_amount : Option ℚ
  requires_receipt : Option Bool
  requires_attendees : Option Bool
deriving DecidableEq, Repr

/-- The dict returned by `ConfluenceClient.get_category_details`.
`validation_rules = none` covers both an absent and an empty (falsy)
dict, which the source treats identically. -/
structure CategoryDetails where
  aliases : List String
  validation_rules : Option DetailRules
  vendor_keywords : Option (List String)
  time_based : Option (List TimeRule)
deriving DecidableEq, Repr

structure Remote where
  index : Except Unit (List IndexRow)
  details : String → Except Unit CategoryDetails

/-- Outbound Confluence API interactions performed by a resolution. -/
inductive CallEvent where
  | policyIndex
  | categoryDetails (name : String)
deriving DecidableEq, Repr

/-! ## Category assembly inside `get_policy` (policyStore.py lines 83-197) -/

/-- The body of the index-row loop for one usable row (lines 100-150):
alias parsing and merging, validation rules with detail-page overrides,
enrichment rules. -/
def buildCategory (row : IndexRow) (name : String) (details : CategoryDetails) :
    CategoryDefinition :=
  let aliasStr := row.aliases.getD ""
  let aliases0 := if aliasStr = "" then [] else (aliasStr.splitOn ",").map String.trim
  let aliases1 := if details.aliases ≠ [] then aliases0 ++ details.aliases else aliases0
  let baseAmount := row.maxAmount.getD 0
  let baseReceipt := (row.receiptRequired.getD "Yes") == "Yes"
  let baseAttendees := (row.attendeesRequired.getD "No") == "Yes"
  let vr : ValidationRules :=
    match details.validation_rules with
    | some dr =>
      { max_amount := dr.max_amount.getD baseAmount
        currency := row.currency.getD "CHF"
        requires_receipt := dr.requires_receipt.getD baseReceipt
        requires_attendees := dr.requires_attendees.getD baseAttendees
        max_age_days := row.maxAgeDays.getD 90
        approved_vendors := none }
    | none =>
      { max_amount := baseAmount
        currency := row.currency.getD "CHF"
        requires_receipt := baseReceipt
        requires_attendees := baseAttendees
        max_age_days := row.maxAgeDays.getD 90
        approved_vendors := none }
  { name := name
    aliases := aliases1.eraseDups
    enrichment_rules :=
      { time_based := details.time_based, vendor_keywords := details.vendor_keywords }
    validation_rules := vr }

/-- The index-row loop (lines 84-150): rows with a blank `Category` cell
are skipped, a failing detail fetch logs and skips just that row. -/
def buildCategories (remote : Remote) : List IndexRow → List CategoryDefinition
  | [] => []
  | row :: rest =>
    let name := (row.category.getD "").trim
    if name = "" then buildCategories remote rest
    else
      match remote.details name with
      | Except.error _ => buildCategories remote rest
      | Except.ok d => buildCategory row name d :: buildCategories remote rest

/-- The detail-page fetches attempted by the loop: one per row with a
non-blank `Category` cell, whether or not the fetch succeeds. -/
def detailCalls : List IndexRow → List CallEvent
  | [] => []
  | row :: rest =>
    let name := (row.category.getD "").trim
    if name = "" then detailCalls rest
    else CallEvent.categoryDetails name :: detailCalls rest

/-- The synthesized conservative fallback category (lines 182-197). -/
def otherCategory : CategoryDefinition :=
  { name := "Other"
    aliases := ["Miscellaneous", "General", "Uncategorized"]
    enrichment_rules := { time_based := none, vendor_keywords := some [] }
    validation_rules :=
      { max_amount := 100
        currency := "CHF"
        requires_receipt := true
        requires_attendees := false
        max_age_days := 90
        approved_vendors := none } }

/-- Lines 180-197: append the synthesized `Other` category when no
category of that name was assembled. -/
def ensureOther (cats : List CategoryDefinition) : List CategoryDefinition :=
  if cats.any (fun c => c.name == "Other") then cats else cats ++ [otherCategory]

/-! ## `_validate_policy_data` (policyStore.py lines 271-324) -/

/-- The per-category warnings of `_validate_policy_data`.  The
`if not cat.validation_rules` arm of the source is unreachable (pydantic
guarantees the field) and is omitted. -/
def catWarnings (cat : CategoryDefinition) : List String :=
  let amountW :=
    if cat.validation_rules.max_amount ≤ 0 then
      ["Category " ++ cat.name ++ " has invalid max_amount"]
    else []
  let kwW :=
    match cat.enrichment_rules.vendor_keywords with
    | some kws =>
      if kws ≠ [] ∧ (kws.filter (fun k => k.trim != "")).length < kws.length then
        ["Category " ++ cat.name ++ " has empty vendor keywords"]
      else []
    | none => []
  let timeW :=
    match cat.enrichment_rules.time_based with
    | some rules =>
      rules.filterMap (fun r =>
        if r.start_hour.isNone || r.end_hour.isNone then
          some ("Category " ++ cat.name ++ " has invalid time rule")
        else none)
    | none => []
  amountW ++ kwW ++ timeW

/-- Whether a category has a non-empty (truthy) vendor-keyword list. -/
def hasVendorKeywords (cat : CategoryDefinition) : Bool :=
  match cat.enrichment_rules.vendor_keywords with
  | some kws => kws ≠ []
  | none => false

/-- `_validate_policy_data`: raises `ValueError` on an empty category
list, otherwise returns (as data) the warnings it would log. -/
def validatePolicyData (cats : List CategoryDefinition) : Except String (List String) :=
  if cats.isEmpty then Except.error "Policy must contain at least one category"
  else
    let ws := (cats.map catWarnings).flatten
    if cats.any hasVendorKeywords then Except.ok ws
    else Except.ok (ws ++ ["NO categories have vendor keywords defined"])

/-! ## `_load_fallback_policy_from_config` (policyStore.py lines 327-402) -/

/-- Errors that can escape `get_policy`: calls inside the `except` block
are not caught by the surrounding `try`.  `fileNotFound` is the
`FileNotFoundError` for a missing artifact, `invalidJson` the
`ValueError` wrapping a `json.JSONDecodeError`, `keyError` the `KeyError`
of `policy_dict["categories"]` / `cat_dict["name"]` re-raised by the
final `except Exception` arm. -/
inductive ResolveErr where
  | fileNotFound
  | invalidJson
  | keyError
deriving DecidableEq, Repr

/-- One element of the artifact's `categories` list, with `none` for
absent keys. -/
structure FallbackCat where
  name : Option String
  aliases : List String
  time_based : Option (List TimeRule)
  vendor_keywords : Option (List String)
  vr_max_amount : Option ℚ
  vr_currency : Option String
  vr_requires_receipt : Option Bool
  vr_requires_attendees : Option Bool
  vr_max_age_days : Option Int
deriving DecidableEq, Repr

/-- The parsed JSON of `config/fallback_policy.json`. -/
structure FallbackConfig where
  effective_date : Option String
  default_category : Option String
  categories : Option (List FallbackCat)
deriving DecidableEq, Repr

/-- The state of the on-disk Safe Mode artifact as the loader sees it. -/
inductive ArtifactState where
  | missing
  | corrupt
  | parsed (cfg : FallbackConfig)
deriving DecidableEq, Repr

/-- Lines 353-378: one artifact category parsed into a
`CategoryDefinition`, with the source's `.get` defaults. -/
def fallbackCatDef (c : FallbackCat) : CategoryDefinition :=
  { name := c.name.getD ""
    aliases := c.aliases
    enrichment_rules := { time_based := c.time_based, vendor_keywords := c.vendor_keywords }
    validation_rules :=
      { max_amount := c.vr_max_amount.getD 100
        currency := c.vr_currency.getD "CHF"
        requires_receipt := c.vr_requires_receipt.getD true
        requires_attendees := c.vr_requires_attendees.getD false
        max_age_days := c.vr_max_age_days.getD 90
        approved_vendors := none } }

/-- `_load_fallback_policy_from_config`.  Note that no validation of the
parsed categories is performed: the artifact's content goes into the
returned `PolicyData` as-is, with `cache_ttl = 0`. -/
def loadFallbackPolicy (art : ArtifactState) (company_id : String) :
    Except ResolveErr PolicyData :=
  match art with
  | ArtifactState.missing => Except.error ResolveErr.fileNotFound
  | ArtifactState.corrupt => Except.error ResolveErr.invalidJson
  | ArtifactState.parsed cfg =>
    match cfg.categories with
    | none => Except.error ResolveErr.keyError
    | some cats =>
      if cats.any (fun c => c.name.isNone) then Except.error ResolveErr.keyError
      else
        Except.ok
          { company_id := company_id
            effective_date := cfg.effective_date.getD "2024-01-01"
            categories := cats.map fallbackCatDef
            default_category := cfg.default_category.getD "Other"
            cache_ttl := 0 }

/-! ## The tiered cache and `get_policy` (policyStore.py lines 27-268) -/

/-- The module-level `policy_cache` (tenant key to `(PolicyData, float)`)
and `_last_known_good` dicts, as association lists: insertion shadows, so
`List.lookup` gives dict-read semantics. -/
structure CacheState where
  policy_cache : List (String × PolicyData × ℚ)
  last_known_good : List (String × PolicyData)
deriving DecidableEq, Repr

/-- Dict assignment `d[k] = v`. -/
def dictSet {β : Type} (l : List (String × β)) (k : String) (v : β) :
    List (String × β) :=
  (k, v) :: l.filter (fun e => e.1 != k)

/-- Lines 59-69, STEP 1: the fresh-cache probe.  `some d` means the entry
exists and `(now - timestamp) / 3600 < 24`. -/
def freshCached (s : CacheState) (now : ℚ) (key : String) : Option PolicyData :=
  match s.policy_cache.lookup key with
  | some (d, ts) => if (now - ts) / 3600 < 24 then some d else none
  | none => none

/-- Lines 214-218: a successful fetch writes the fresh tier with the
current timestamp and the last-known-good tier, unconditionally. -/
def storeFetchResult (s : CacheState) (key : String) (p : PolicyData) (now : ℚ) :
    CacheState :=
  { policy_cache := dictSet s.policy_cache key (p, now)
    last_known_good := dictSet s.last_known_good key p }

/-- Fallback options 2 and 3 (lines 253-268): last-known-good if
`use_fallback` and present, else the config-based Safe Mode loader.
The second component is the `degradation_level` log tags emitted. -/
def lkgOrSafe (art : ArtifactState) (s : CacheState) (key tid : String)
    (use_fallback : Bool) : Except ResolveErr PolicyData × List String :=
  match s.last_known_good.lookup key, use_fallback with
  | some d, true => (Except.ok d, ["CRITICAL"])
  | some _, false => (loadFallbackPolicy art tid, ["SAFE_MODE"])
  | none, _ => (loadFallbackPolicy art tid, ["SAFE_MODE"])

/-- The `except` block's fallback chain (lines 235-268): stale cache
under 168 hours first, then last-known-good, then Safe Mode. -/
def fallbackChain (art : ArtifactState) (s : CacheState) (now : ℚ)
    (key tid : String) (use_fallback : Bool) :
    Except ResolveErr PolicyData × List String :=
  match s.policy_cache.lookup key with
  | some (d, ts) =>
    if (now - ts) / 3600 < 168 then (Except.ok d, ["MEDIUM"])
    else lkgOrSafe art s key tid use_fallback
  | none => lkgOrSafe art s key tid use_fallback

/-- Everything one call of `get_policy` produces: its return value or
raised error, the cache state afterwards, the outbound Confluence calls
made, the `degradation_level` log tags emitted, and the (global)
`confluence_breaker` afterwards. -/
structure ResolveOut where
  result : Except ResolveErr PolicyData
  state : CacheState
  calls : List CallEvent
  tags : List String
  breaker : Breaker
deriving DecidableEq, Repr

/-- `get_policy(company_id, use_fallback)` (lines 33-268).  The global
`confluence_breaker` is part of the process state but — unlike
`ConfluenceClient.fetch_policy_data`, which `get_policy` never calls —
the fetch made here goes straight to `get_policy_index` /
`get_category_details`, so the breaker is neither consulted nor updated.
A `ValueError` from `_validate_policy_data` is raised inside the `try`
and so falls into the fallback chain. -/
def get_policy (remote : Remote) (art : ArtifactState) (b : Breaker)
    (s : CacheState) (now : ℚ) (company_id : String) (use_fallback : Bool) :
    ResolveOut :=
  let key := "policy_" ++ company_id
  match freshCached s now key with
  | some d => { result := Except.ok d, state := s, calls := [], tags := [], breaker := b }
  | none =>
    match remote.index with
    | Except.error _ =>
      let fb := fallbackChain art s now key company_id use_fallback
      { result := fb.1, state := s, calls := [CallEvent.policyIndex], tags := fb.2, breaker := b }
    | Except.ok rows =>
      let cats := ensureOther (buildCategories remote rows)
      match validatePolicyData cats with
      | Except.error _ =>
        let fb := fallbackChain art s now key company_id use_fallback
        { result := fb.1, state := s, calls := CallEvent.policyIndex :: detailCalls rows
          tags := fb.2, breaker := b }
      | Except.ok _ =>
        let p : PolicyData :=
          { company_id := company_id
            effective_date := "2024-01-01"
            categories := cats
            default_category := "Other"
            cache_ttl := 86400 }
        { result := Except.ok p
          state := storeFetchResult s key p now
          calls := CallEvent.policyIndex :: detailCalls rows
          tags := [], breaker := b }

/-! ## Derived notions and concrete fixtures used by the statements -/

/-- The data-model invariant of §3 of the specification: a non-empty
category list whose `default_category` resolves to a member. -/
def policyInvariant (p : PolicyData) : Prop :=
  p.categories ≠ [] ∧ p.default_category ∈ p.categories.map (fun c => c.name)

instance (p : PolicyData) : Decidable (policyInvariant p) := by
  unfold policyInvariant; infer_instance

/-- No cache entry for `key` is within the 168-hour stale window at
`now` (so fallback option 1 does not fire). -/
def staleMiss (s : CacheState) (now : ℚ) (key : String) : Prop :=
  ∀ d ts, s.policy_cache.lookup key = some (d, ts) → ¬ ((now - ts) / 3600 < 168)

/-- The `degradation_level` log tags one `get_policy` call should emit,
computed from the branch conditions alone: nothing on a fresh hit or a
successful fetch, `MEDIUM` for stale cache, `CRITICAL` for
last-known-good, `SAFE_MODE` when the config fallback is reached. -/
def expectedTags (remote : Remote) (s : CacheState) (now : ℚ) (tid : String)
    (use_fallback : Bool) : List String :=
  let key := "policy_" ++ tid
  if (freshCached s now key).isSome then []
  else
    match remote.index with
    | Except.ok _ => []
    | Except.error _ =>
      match s.policy_cache.lookup key with
      | some (_, ts) =>
        if (now - ts) / 3600 < 168 then ["MEDIUM"]
        else if use_fallback && (s.last_known_good.lookup key).isSome then ["CRITICAL"]
        else ["SAFE_MODE"]
      | none =>
        if use_fallback && (s.last_known_good.lookup key).isSome then ["CRITICAL"]
        else ["SAFE_MODE"]

/-- A remote source whose index fetch raises. -/
def remoteFail : Remote := { index := Except.error (), details := fun _ => Except.error () }

/-- A remote source whose index fetch succeeds with zero rows. -/
def remoteOkEmpty : Remote := { index := Except.ok [], details := fun _ => Except.error () }

/-- The process-wide `confluence_breaker` as initialized in
retry_handler.py line 57. -/
def confluenceBreaker : Breaker := initBreaker 3 60

/-- The `confluence_breaker` in `OPEN` state after three failures, the
last at instant 1000. -/
def openBreaker : Breaker :=
  { failure_count := 3, failure_threshold := 3, timeout_duration := 60,
    last_failure_time := some 1000, state := CBState.opened }

def emptyCache : CacheState := { policy_cache := [], last_known_good := [] }

/-- The policy produced by a successful fetch that assembled zero
categories from the index: just the synthesized `Other`. -/
def otherOnlyPolicy (tid : String) : PolicyData :=
  { company_id := tid, effective_date := "2024-01-01", categories := [otherCategory],
    default_category := "Other", cache_ttl := 86400 }

/-- A cache whose only fresh-tier entry for tenant `acme` was fetched at
instant 0, with an empty last-known-good tier. -/
def staleAcme : CacheState :=
  { policy_cache := [("policy_acme", (otherOnlyPolicy "acme", 0))], last_known_good := [] }

/-- A distinctly-shaped second policy value. -/
def lkgPolicyAcme : PolicyData :=
  { company_id := "acme", effective_date := "2023-06-01", categories := [otherCategory],
    default_category := "Other", cache_ttl := 86400 }

/-- A cache holding, for tenant `acme`, a fresh-tier entry fetched at
instant 0 and a last-known-good entry with different content (the
scenario of the fallback-ordering test: at `now = 360000` the fresh-tier
entry is 100 hours old). -/
def staleAndLkgAcme : CacheState :=
  { policy_cache := [("policy_acme", (otherOnlyPolicy "acme", 0))]
    last_known_good := [("policy_acme", lkgPolicyAcme)] }

/-- A syntactically valid Safe Mode artifact whose `categories` list is
empty. -/
def emptyCatArtifact : ArtifactState :=
  ArtifactState.parsed { effective_date := none, default_category := none, categories := some [] }

/-- What `_load_fallback_policy_from_config` builds from
`emptyCatArtifact` for tenant `acme`. -/
def emptyCatPolicy : PolicyData :=
  { company_id := "acme", effective_date := "2024-01-01", categories := [],
    default_category := "Other", cache_ttl := 0 }

/-- A well-formed Safe Mode artifact with a single `Other` category. -/
def goodArtifact : ArtifactState :=
  ArtifactState.parsed
    { effective_date := some "2024-01-01", default_category := some "Other",
      categories := some
        [{ name := some "Other", aliases := [], time_based := none, vendor_keywords := none,
           vr_max_amount := none, vr_currency := none, vr_requires_receipt := none,
           vr_requires_attendees := none, vr_max_age_days := none }] }

/-- What `_load_fallback_policy_from_config` builds from `goodArtifact`
for tenant `acme`. -/
def safeModePolicyAcme : PolicyData :=
  { company_id := "acme", effective_date := "2024-01-01",
    categories :=
      [{ name := "Other", aliases := [],
         enrichment_rules := { time_based := none, vendor_keywords := none },
         validation_rules :=
           { max_amount := 100, currency := "CHF", requires_receipt := true,
             requires_attendees := false, max_age_days := 90, approved_vendors := none } }],
    default_category := "Other", cache_ttl := 0 }
/-! ## Circuit breaker: lemmas for claim C5 -/

theorem applyFails_append (b : Breaker) (xs ys : List ℚ) :
    applyFails b (xs ++ ys) = applyFails (applyFails b xs) ys := by
  induction xs generalizing b with
  | nil => rfl
  | cons x xs ih =>
    simp only [List.cons_append, applyFails]
    exact ih _

theorem call_closed_fail (b : Breaker) (t : ℚ) (hcl : b.state = CBState.closed)
    (hfc : b.failure_count + 1 < b.failure_threshold) :
    (Breaker.call b t (Except.error () : Except Unit Unit)).breaker
      = { b with failure_count := b.failure_count + 1, last_failure_time := some t } := by
  rw [Breaker.call, if_neg (by rw [hcl]; intro hc; cases hc)]
  rw [Breaker.callBody]
  simp only [if_neg (by omega : ¬ b.failure_count + 1 ≥ b.failure_threshold)]

theorem applyFails_closed (ts : List ℚ) : ∀ (b : Breaker),
    b.state = CBState.closed → b.failure_count + ts.length < b.failure_threshold →
    (applyFails b ts).state = CBState.closed ∧
    (applyFails b ts).failure_count = b.failure_count + ts.length ∧
    (applyFails b ts).failure_threshold = b.failure_threshold ∧
    (applyFails b ts).timeout_duration = b.timeout_duration := by
  induction ts with
  | nil => intro b h _; simp [applyFails, h]
  | cons t ts ih =>
    intro b h hlt
    simp only [List.length_cons] at hlt
    rw [applyFails, call_closed_fail b t h (by omega)]
    have := ih { b with failure_count := b.failure_count + 1, last_failure_time := some t }
      h (by show b.failure_count + 1 + ts.length < b.failure_threshold; omega)
    simp only [List.length_cons]
    refine ⟨this.1, ?_, ?_, ?_⟩
    · rw [this.2.1]
      show b.failure_count + 1 + ts.length = b.failure_count + (ts.length + 1)
      omega
    · rw [this.2.2.1]
    · rw [this.2.2.2]

/-- Claim C5: from `CLOSED` with `failure_count = 0`, exactly `threshold`
consecutive failing calls leave the breaker `OPEN` (after `threshold - 1`
it is still `CLOSED`), and a further call within the cooldown returns the
distinct circuit-open error without invoking the wrapped operation and
without changing the breaker. -/
theorem breaker_trip_then_fail_fast
    (t : Nat) (cd : ℚ) (ts : List ℚ) (tl now : ℚ) (op : Except Unit Unit)
    (hlen : ts.length + 1 = t) (hnow : now - tl < cd) :
    (applyFails (initBreaker t cd) ts).state = CBState.closed ∧
    (applyFails (initBreaker t cd) (ts ++ [tl])).state = CBState.opened ∧
    (applyFails (initBreaker t cd) (ts ++ [tl])).failure_count = t ∧
    (applyFails (initBreaker t cd) (ts ++ [tl])).last_failure_time = some tl ∧
    (applyFails (initBreaker t cd) (ts ++ [tl])).call now op
      = { result := Except.error CBErr.circuitOpen,
          breaker := applyFails (initBreaker t cd) (ts ++ [tl]), invoked := false } := by
  have hcl := applyFails_closed ts (initBreaker t cd) rfl
    (by show 0 + ts.length < t; omega)
  set b1 := applyFails (initBreaker t cd) ts with hb1
  have hfc : b1.failure_count = ts.length := by
    have := hcl.2.1; simpa [initBreaker] using this
  have hth : b1.failure_threshold = t := hcl.2.2.1
  have htd : b1.timeout_duration = cd := hcl.2.2.2
  have hopen : applyFails (initBreaker t cd) (ts ++ [tl])
      = { b1 with failure_count := ts.length + 1, last_failure_time := some tl,
                  state := CBState.opened } := by
    rw [applyFails_append]
    rw [← hb1]
    show applyFails (Breaker.call b1 tl (Except.error () : Except Unit Unit)).breaker [] = _
    rw [Breaker.call, if_neg (by rw [hcl.1]; intro hc; cases hc)]
    rw [Breaker.callBody]
    simp only [applyFails]
    rw [if_pos (by omega), hfc]
  refine ⟨hcl.1, ?_, ?_, ?_, ?_⟩
  · rw [hopen]
  · rw [hopen]; show ts.length + 1 = t; omega
  · rw [hopen]
  · rw [hopen, Breaker.call]
    rw [if_pos rfl]
    rw [if_neg ?hg]
    case hg =>
      show ¬ now - (Option.getD (some tl) 0) > b1.timeout_duration
      rw [htd]
      simp only [Option.getD]
      intro hgt
      exact absurd hnow (not_lt.mpr (le_of_lt hgt))

/-- Witness for claim C5 at `threshold = 3`, `cooldown = 60`, failures at
instants 0, 1, 2 and a probe at instant 30. -/
theorem breaker_trip_then_fail_fast_witness :
    ((List.length [(0 : ℚ), 1] + 1 = 3) ∧ (30 : ℚ) - 2 < 60) ∧
    (applyFails (initBreaker 3 60) ([0, 1] ++ [2])).call 30 (Except.ok ())
      = { result := Except.error CBErr.circuitOpen,
          breaker := applyFails (initBreaker 3 60) ([0, 1] ++ [2]), invoked := false } :=
  ⟨⟨by decide, by norm_num⟩,
    (breaker_trip_then_fail_fast 3 60 [0, 1] 2 30 (Except.ok ())
      (by decide) (by norm_num)).2.2.2.2⟩

/-! ## Retry policy: lemmas for claim C6 -/

theorem elapsedBefore_mono (dur : Nat → ℚ) (delay : ℚ)
    (hd : ∀ j, 0 ≤ dur j) (hdel : 0 ≤ delay) :
    ∀ m n, m ≤ n → elapsedBefore dur delay m ≤ elapsedBefore dur delay n := by
  intro m n hmn
  induction n with
  | zero => simp_all
  | succ n ih =>
    rcases Nat.lt_or_ge m (n + 1) with hlt | hge
    · have h1 := ih (by omega)
      calc elapsedBefore dur delay m ≤ elapsedBefore dur delay n := h1
        _ ≤ elapsedBefore dur delay n + dur n + delay := by
            have := hd n; linarith
        _ = elapsedBefore dur delay (n + 1) := rfl
    · have : m = n + 1 := by omega
      rw [this]

theorem retryGo_all_transient {A : Type} (op : Nat → AttemptOutcome A) (dur : Nat → ℚ)
    (maxAttempts : Nat) (delay timeout : ℚ)
    (hop : ∀ j, j < maxAttempts → op j = AttemptOutcome.transientErr)
    (hd : ∀ j, 0 ≤ dur j) (hdel : 0 ≤ delay)
    (hmax : elapsedBefore dur delay (maxAttempts - 1) ≤ timeout) :
    ∀ (r : Nat), ∀ (i inv sl : Nat) (hl : Bool), i + r = maxAttempts → 0 < r →
      retryGo op dur maxAttempts delay timeout i r (elapsedBefore dur delay i) inv sl hl
        = { result := RetryResult.transient, invocations := inv + r, sleeps := sl + (r - 1) } := by
  intro r
  induction r with
  | zero => intro i inv sl hl heq hpos; omega
  | succ r ih =>
    intro i inv sl hl heq _
    have hchk : ¬ elapsedBefore dur delay i > timeout := by
      have hle : elapsedBefore dur delay i ≤ elapsedBefore dur delay (maxAttempts - 1) :=
        elapsedBefore_mono dur delay hd hdel i (maxAttempts - 1) (by omega)
      intro hgt
      exact absurd (le_trans hle hmax) (not_le.mpr hgt)
    rw [retryGo, if_neg hchk, hop i (by omega)]
    rcases Nat.eq_zero_or_pos r with hr0 | hrpos
    · subst hr0
      rw [if_neg (by omega : ¬ i < maxAttempts - 1)]
      rw [retryGo]
      simp
    · rw [if_pos (by omega : i < maxAttempts - 1)]
      have harg : elapsedBefore dur delay i + dur i + delay = elapsedBefore dur delay (i + 1) := rfl
      rw [harg, ih (i + 1) (inv + 1) (sl + 1) true (by omega) hrpos]
      have h1 : inv + 1 + r = inv + (r + 1) := by omega
      have h2 : sl + 1 + (r - 1) = sl + (r + 1 - 1) := by omega
      rw [h1, h2]

/-- Claim C6: a deterministic (parse or validation class) error is
propagated with the operation invoked exactly once and no sleep; an
operation failing transiently on every attempt is invoked
`maxAttempts` times (the first plus `maxAttempts - 1` retries), sleeps
the configured delay between attempts, and the last transient error is
re-raised once attempts are exhausted. -/
theorem retry_classification (maxAttempts : Nat) (delay timeout : ℚ)
    (h0 : 0 < maxAttempts) (hT : 0 ≤ timeout) :
    (∀ (op : Nat → AttemptOutcome Unit) (dur : Nat → ℚ),
      op 0 = AttemptOutcome.deterministicErr →
      retryLoop op dur maxAttempts delay timeout
        = { result := RetryResult.deterministic, invocations := 1, sleeps := 0 }) ∧
    (∀ (op : Nat → AttemptOutcome Unit) (dur : Nat → ℚ),
      (∀ j, j < maxAttempts → op j = AttemptOutcome.transientErr) →
      (∀ j, 0 ≤ dur j) → 0 ≤ delay →
      elapsedBefore dur delay (maxAttempts - 1) ≤ timeout →
      retryLoop op dur maxAttempts delay timeout
        = { result := RetryResult.transient, invocations := maxAttempts,
            sleeps := maxAttempts - 1 }) := by
  constructor
  · intro op dur hdet
    obtain ⟨r, rfl⟩ : ∃ r, maxAttempts = r + 1 := ⟨maxAttempts - 1, by omega⟩
    rw [retryLoop, retryGo, if_neg (by intro hgt; exact absurd hT (not_le.mpr hgt)), hdet]
  · intro op dur hop hd hdel hmax
    have := retryGo_all_transient op dur maxAttempts delay timeout hop hd hdel hmax
      maxAttempts 0 0 0 false (by omega) h0
    rw [retryLoop]
    have h0e : elapsedBefore dur delay 0 = 0 := rfl
    rw [← h0e, this]
    simp

/-- Witness for claim C6 with the source defaults `max_attempts = 2`,
`delay = 30`, `timeout = 120`, one-second attempts. -/
theorem retry_classification_witness :
    retryLoop (fun _ => AttemptOutcome.deterministicErr (A := Unit)) (fun _ => 1) 2 30 120
      = { result := RetryResult.deterministic, invocations := 1, sleeps := 0 } ∧
    retryLoop (fun _ => AttemptOutcome.transientErr (A := Unit)) (fun _ => 1) 2 30 120
      = { result := RetryResult.transient, invocations := 2, sleeps := 1 } :=
  ⟨(retry_classification 2 30 120 (by decide) (by norm_num)).1
      (fun _ => AttemptOutcome.deterministicErr) (fun _ => 1) rfl,
    (retry_classification 2 30 120 (by decide) (by norm_num)).2
      (fun _ => AttemptOutcome.transientErr) (fun _ => 1) (fun _ _ => rfl)
      (fun _ => by norm_num) (by norm_num)
      (by show elapsedBefore (fun _ => 1) 30 1 ≤ 120
          show elapsedBefore (fun _ => 1) 30 0 + 1 + 30 ≤ 120
          show (0 : ℚ) + 1 + 30 ≤ 120
          norm_num)⟩

/-! ## Helper lemmas about the cache and the resolver -/

theorem lookup_mem {β : Type} (k : String) (v : β) :
    ∀ (l : List (String × β)), l.lookup k = some v → (k, v) ∈ l := by
  intro l
  induction l with
  | nil => intro h; simp [List.lookup] at h
  | cons e t ih =>
    intro h
    obtain ⟨a, b⟩ := e
    rw [List.lookup] at h
    split at h
    · rename_i hbeq
      obtain rfl : k = a := eq_of_beq hbeq
      obtain rfl : b = v := by injection h
      exact List.mem_cons_self _ _
    · exact List.mem_cons_of_mem _ (ih h)

theorem lookup_dictSet {β : Type} (l : List (String × β)) (k : String) (v : β) :
    (dictSet l k v).lookup k = some v := by
  rw [dictSet, List.lookup]
  simp

theorem freshCached_some (s : CacheState) (now : ℚ) (key : String) (d : PolicyData)
    (h : freshCached s now key = some d) :
    ∃ ts, s.policy_cache.lookup key = some (d, ts) := by
  rw [freshCached] at h
  split at h
  · rename_i d2 ts heq
    split at h
    · exact ⟨ts, by rw [heq]; injection h with h2; rw [h2]⟩
    · cases h
  · cases h

theorem ensureOther_ne_nil (cs : List CategoryDefinition) : ensureOther cs ≠ [] := by
  rw [ensureOther]
  split
  · rename_i hany
    intro hnil
    rw [hnil] at hany
    simp at hany
  · simp

theorem validate_ensureOther_ok (cs : List CategoryDefinition) :
    ∃ w, validatePolicyData (ensureOther cs) = Except.ok w := by
  rw [validatePolicyData]
  rw [if_neg (by simpa using ensureOther_ne_nil cs)]
  split <;> exact ⟨_, rfl⟩

theorem other_mem_ensureOther (cs : List CategoryDefinition) :
    "Other" ∈ (ensureOther cs).map (fun c => c.name) := by
  rw [ensureOther]
  split
  · rename_i hany
    rw [List.any_eq_true] at hany
    obtain ⟨c, hc, hn⟩ := hany
    have hcn : c.name = "Other" := eq_of_beq (by simpa using hn)
    exact List.mem_map.mpr ⟨c, hc, hcn⟩
  · simp [otherCategory]

theorem get_policy_fresh (remote : Remote) (art : ArtifactState) (b : Breaker)
    (s : CacheState) (now : ℚ) (tid : String) (uf : Bool) (d : PolicyData)
    (h : freshCached s now ("policy_" ++ tid) = some d) :
    get_policy remote art b s now tid uf
      = { result := Except.ok d, state := s, calls := [], tags := [], breaker := b } := by
  simp only [get_policy, h]

theorem get_policy_fetchfail (remote : Remote) (art : ArtifactState) (b : Breaker)
    (s : CacheState) (now : ℚ) (tid : String) (uf : Bool)
    (hmiss : freshCached s now ("policy_" ++ tid) = none)
    (hidx : remote.index = Except.error ()) :
    get_policy remote art b s now tid uf
      = { result := (fallbackChain art s now ("policy_" ++ tid) tid uf).1, state := s,
          calls := [CallEvent.policyIndex],
          tags := (fallbackChain art s now ("policy_" ++ tid) tid uf).2, breaker := b } := by
  simp only [get_policy, hmiss, hidx]

theorem get_policy_fetchok (remote : Remote) (art : ArtifactState) (b : Breaker)
    (s : CacheState) (now : ℚ) (tid : String) (uf : Bool) (rows : List IndexRow)
    (hmiss : freshCached s now ("policy_" ++ tid) = none)
    (hidx : remote.index = Except.ok rows) :
    get_policy remote art b s now tid uf
      = { result := Except.ok
            { company_id := tid, effective_date := "2024-01-01",
              categories := ensureOther (buildCategories remote rows),
              default_category := "Other", cache_ttl := 86400 },
          state := storeFetchResult s ("policy_" ++ tid)
            { company_id := tid, effective_date := "2024-01-01",
              categories := ensureOther (buildCategories remote rows),
              default_category := "Other", cache_ttl := 86400 } now,
          calls := CallEvent.policyIndex :: detailCalls rows,
          tags := [], breaker := b } := by
  obtain ⟨w, hw⟩ := validate_ensureOther_ok (buildCategories remote rows)
  simp only [get_policy, hmiss, hidx, hw]

theorem fallbackChain_stale (art : ArtifactState) (s : CacheState) (now : ℚ)
    (key tid : String) (uf : Bool) (d : PolicyData) (ts : ℚ)
    (hl : s.policy_cache.lookup key = some (d, ts)) (hage : (now - ts) / 3600 < 168) :
    fallbackChain art s now key tid uf = (Except.ok d, ["MEDIUM"]) := by
  simp only [fallbackChain, hl, if_pos hage]

theorem fallbackChain_lkg (art : ArtifactState) (s : CacheState) (now : ℚ)
    (key tid : String) (d : PolicyData)
    (hstale : staleMiss s now key)
    (hl : s.last_known_good.lookup key = some d) :
    fallbackChain art s now key tid true = (Except.ok d, ["CRITICAL"]) := by
  rw [fallbackChain]
  split
  · rename_i d2 ts hpc
    rw [if_neg (hstale d2 ts hpc)]
    simp only [lkgOrSafe, hl]
  · simp only [lkgOrSafe, hl]

theorem fallbackChain_safe (art : ArtifactState) (s : CacheState) (now : ℚ)
    (key tid : String) (uf : Bool)
    (hstale : staleMiss s now key)
    (hl : s.last_known_good.lookup key = none) :
    fallbackChain art s now key tid uf = (loadFallbackPolicy art tid, ["SAFE_MODE"]) := by
  rw [fallbackChain]
  split
  · rename_i d2 ts hpc
    rw [if_neg (hstale d2 ts hpc)]
    simp only [lkgOrSafe, hl]
  · simp only [lkgOrSafe, hl]

theorem staleMiss_freshNone (s : CacheState) (now : ℚ) (key : String)
    (hstale : staleMiss s now key) : freshCached s now key = none := by
  rw [freshCached]
  split
  · rename_i d ts hpc
    rw [if_neg]
    intro hlt
    exact hstale d ts hpc (lt_trans hlt (by norm_num))
  · rfl

theorem staleMiss_mono (s : CacheState) (now now2 : ℚ) (key : String)
    (hstale : staleMiss s now key) (hle : now ≤ now2) : freshCached s now2 key = none := by
  apply staleMiss_freshNone
  intro d ts hpc hlt
  apply hstale d ts hpc
  calc (now - ts) / 3600 ≤ (now2 - ts) / 3600 := by
        apply div_le_div_of_nonneg_right ?_ (by norm_num)
        linarith
    _ < 168 := hlt

theorem loadFallback_ttl0 (art : ArtifactState) (tid : String) (p : PolicyData)
    (h : loadFallbackPolicy art tid = Except.ok p) : p.cache_ttl = 0 := by
  cases art with
  | missing => cases h
  | corrupt => cases h
  | parsed cfg =>
    rw [loadFallbackPolicy] at h
    split at h
    · cases h
    · split at h
      · cases h
      · injection h with h2
        rw [← h2]

/-! ## Claim C1 -/

/-- Claim C1 counterexample: with the shared `confluence_breaker` `OPEN`
after three failures (last at instant 1000) and the probe at instant
1010 — inside the 60-second cooldown — a `resolve` call on a cold cache
still performs an outbound `get_policy_index` call and returns the
freshly fetched policy instead of serving the fallback chain:
`get_policy` never routes its fetch through the breaker. -/
theorem resolve_bypasses_open_breaker_cex :
    openBreaker.state = CBState.opened ∧ (1010 : ℚ) - 1000 < 60 ∧
    (get_policy remoteOkEmpty ArtifactState.missing openBreaker emptyCache 1010 "acme" true).calls
      = [CallEvent.policyIndex] ∧
    (get_policy remoteOkEmpty ArtifactState.missing openBreaker emptyCache 1010 "acme" true).result
      = Except.ok (otherOnlyPolicy "acme") :=
  ⟨rfl, by norm_num, by decide, by decide⟩

/-- Claim C1 amended: whenever the fresh cache misses, `get_policy`
calls the Confluence client's `get_policy_index` directly — the first
outbound call happens no matter what state the breaker is in — and the
breaker is neither updated nor consulted: every observable component of
the call is the same for any two breaker states. -/
theorem resolve_ignores_breaker (remote : Remote) (art : ArtifactState)
    (b b2 : Breaker) (s : CacheState) (now : ℚ) (tid : String)
    (hmiss : freshCached s now ("policy_" ++ tid) = none) :
    (get_policy remote art b s now tid true).calls.head? = some CallEvent.policyIndex ∧
    (get_policy remote art b s now tid true).breaker = b ∧
    (get_policy remote art b s now tid true).result
      = (get_policy remote art b2 s now tid true).result ∧
    (get_policy remote art b s now tid true).state
      = (get_policy remote art b2 s now tid true).state ∧
    (get_policy remote art b s now tid true).calls
      = (get_policy remote art b2 s now tid true).calls ∧
    (get_policy remote art b s now tid true).tags
      = (get_policy remote art b2 s now tid true).tags := by
  simp only [get_policy, hmiss]
  cases hidx : remote.index with
  | error e => exact ⟨rfl, rfl, rfl, rfl, rfl, rfl⟩
  | ok rows =>
    dsimp only
    cases hv : validatePolicyData (ensureOther (buildCategories remote rows)) with
    | error e => exact ⟨rfl, rfl, rfl, rfl, rfl, rfl⟩
    | ok w => exact ⟨rfl, rfl, rfl, rfl, rfl, rfl⟩

/-- Witness for the amended claim C1: cold cache, open breaker within
cooldown versus a fresh breaker. -/
theorem resolve_ignores_breaker_witness :
    (get_policy remoteFail ArtifactState.missing openBreaker emptyCache 1010 "acme" true).calls.head?
      = some CallEvent.policyIndex ∧
    (get_policy remoteFail ArtifactState.missing openBreaker emptyCache 1010 "acme" true).breaker
      = openBreaker ∧
    (get_policy remoteFail ArtifactState.missing openBreaker emptyCache 1010 "acme" true).result
      = (get_policy remoteFail ArtifactState.missing confluenceBreaker emptyCache 1010 "acme" true).result := by
  have h := resolve_ignores_breaker remoteFail ArtifactState.missing openBreaker
    confluenceBreaker emptyCache 1010 "acme" rfl
  exact ⟨h.1, h.2.1, h.2.2.1⟩

/-! ## Claim C2 -/

/-- Claim C2 counterexample: the return value of `get_policy` carries no
degradation level.  With the same cached entry, a fresh hit at
`now = 3600` (age 1 h) and a stale fallback at `now = 360000` (age 100 h,
fetch failing) return the very same value, while the stages differ — the
only stage marker is the logged `degradation_level` tag, `MEDIUM`
(not `STALE`) on the stale path. -/
theorem resolve_returns_no_level_cex :
    (get_policy remoteFail ArtifactState.missing confluenceBreaker staleAcme 3600 "acme" true).result
      = (get_policy remoteFail ArtifactState.missing confluenceBreaker staleAcme 360000 "acme" true).result ∧
    (get_policy remoteFail ArtifactState.missing confluenceBreaker staleAcme 3600 "acme" true).result
      = Except.ok (otherOnlyPolicy "acme") ∧
    (get_policy remoteFail ArtifactState.missing confluenceBreaker staleAcme 3600 "acme" true).tags
      = [] ∧
    (get_policy remoteFail ArtifactState.missing confluenceBreaker staleAcme 360000 "acme" true).tags
      = ["MEDIUM"] := by
  have hl : staleAcme.policy_cache.lookup ("policy_" ++ "acme")
      = some (otherOnlyPolicy "acme", 0) := by
    simp +decide [staleAcme, List.lookup]
  have hfresh : freshCached staleAcme 3600 ("policy_" ++ "acme") = some (otherOnlyPolicy "acme") := by
    rw [freshCached, hl]
    dsimp only
    rw [if_pos (by norm_num : ((3600 : ℚ) - 0) / 3600 < 24)]
  have hmiss : freshCached staleAcme 360000 ("policy_" ++ "acme") = none := by
    rw [freshCached, hl]
    dsimp only
    rw [if_neg (by norm_num : ¬ ((360000 : ℚ) - 0) / 3600 < 24)]
  have h1 := get_policy_fresh remoteFail ArtifactState.missing confluenceBreaker
    staleAcme 3600 "acme" true (otherOnlyPolicy "acme") hfresh
  have h2 := get_policy_fetchfail remoteFail ArtifactState.missing confluenceBreaker
    staleAcme 360000 "acme" true hmiss rfl
  have h3 := fallbackChain_stale ArtifactState.missing staleAcme 360000
    ("policy_" ++ "acme") "acme" true (otherOnlyPolicy "acme") 0 hl (by norm_num)
  rw [h1, h2, h3]
  exact ⟨rfl, rfl, rfl, rfl⟩

theorem lkgOrSafe_tags (art : ArtifactState) (s : CacheState) (key tid : String) (uf : Bool) :
    (lkgOrSafe art s key tid uf).2
      = if uf && (s.last_known_good.lookup key).isSome then ["CRITICAL"] else ["SAFE_MODE"] := by
  cases hlk : s.last_known_good.lookup key with
  | some d => cases uf <;> simp [lkgOrSafe, hlk]
  | none => cases uf <;> simp [lkgOrSafe, hlk]

theorem fallbackChain_tags (art : ArtifactState) (s : CacheState) (now : ℚ)
    (key tid : String) (uf : Bool) :
    (fallbackChain art s now key tid uf).2
      = match s.policy_cache.lookup key with
        | some (_, ts) =>
          if (now - ts) / 3600 < 168 then ["MEDIUM"]
          else if uf && (s.last_known_good.lookup key).isSome then ["CRITICAL"]
          else ["SAFE_MODE"]
        | none =>
          if uf && (s.last_known_good.lookup key).isSome then ["CRITICAL"]
          else ["SAFE_MODE"] := by
  rw [fallbackChain]
  cases hpc : s.policy_cache.lookup key with
  | none => exact lkgOrSafe_tags art s key tid uf
  | some e =>
    obtain ⟨d, ts⟩ := e
    dsimp only
    by_cases hage : (now - ts) / 3600 < 168
    · simp only [if_pos hage]
    · simp only [if_neg hage]
      exact lkgOrSafe_tags art s key tid uf

/-- Claim C2 amended: `get_policy` returns only a `PolicyData`; the
stage that produced the result is communicated through log records, and
the `degradation_level` tags logged are exactly determined by the branch
conditions — none for a fresh hit or successful fetch, `MEDIUM` for
stale cache, `CRITICAL` for last-known-good, `SAFE_MODE` for the config
fallback. -/
theorem resolve_tags_identify_stage (remote : Remote) (art : ArtifactState)
    (b : Breaker) (s : CacheState) (now : ℚ) (tid : String) (uf : Bool) :
    (get_policy remote art b s now tid uf).tags = expectedTags remote s now tid uf := by
  simp only [expectedTags]
  cases hf : freshCached s now ("policy_" ++ tid) with
  | some d =>
    rw [get_policy_fresh remote art b s now tid uf d hf]
    simp
  | none =>
    rw [if_neg (by simp)]
    cases hidx : remote.index with
    | error e =>
      rw [get_policy_fetchfail remote art b s now tid uf hf hidx]
      exact fallbackChain_tags art s now ("policy_" ++ tid) tid uf
    | ok rows =>
      rw [get_policy_fetchok remote art b s now tid uf rows hf hidx]

/-! ## Claim C3 -/

/-- Claim C3: when the fresh cache misses and the remote fetch fails,
the fallback order is fixed: a cache entry younger than 168 hours is
returned (tagged stale) no matter what the last-known-good tier holds;
only without one is the last-known-good entry returned, of any age; and
only with neither does the Safe Mode loader produce the result. -/
theorem fallback_ordering (remote : Remote) (art : ArtifactState) (b : Breaker)
    (s : CacheState) (now : ℚ) (tid : String)
    (hmiss : freshCached s now ("policy_" ++ tid) = none)
    (hidx : remote.index = Except.error ()) :
    (∀ d ts, s.policy_cache.lookup ("policy_" ++ tid) = some (d, ts) →
      (now - ts) / 3600 < 168 →
      (get_policy remote art b s now tid true).result = Except.ok d) ∧
    (staleMiss s now ("policy_" ++ tid) →
      ∀ d, s.last_known_good.lookup ("policy_" ++ tid) = some d →
      (get_policy remote art b s now tid true).result = Except.ok d) ∧
    (staleMiss s now ("policy_" ++ tid) →
      s.last_known_good.lookup ("policy_" ++ tid) = none →
      (get_policy remote art b s now tid true).result = loadFallbackPolicy art tid) := by
  rw [get_policy_fetchfail remote art b s now tid true hmiss hidx]
  refine ⟨?_, ?_, ?_⟩
  · intro d ts hl hage
    rw [fallbackChain_stale art s now ("policy_" ++ tid) tid true d ts hl hage]
  · intro hstale d hl
    rw [fallbackChain_lkg art s now ("policy_" ++ tid) tid d hstale hl]
  · intro hstale hl
    rw [fallbackChain_safe art s now ("policy_" ++ tid) tid true hstale hl]

/-- Witness for claim C3: at `now = 360000` the `acme` entry fetched at
instant 0 is 100 hours old — expired for the fresh tier, inside the
stale window — and it is returned in preference to the present (and
different) last-known-good entry. -/
theorem fallback_ordering_witness :
    (get_policy remoteFail ArtifactState.missing confluenceBreaker
        staleAndLkgAcme 360000 "acme" true).result
      = Except.ok (otherOnlyPolicy "acme") ∧
    staleAndLkgAcme.last_known_good.lookup ("policy_" ++ "acme") = some lkgPolicyAcme ∧
    lkgPolicyAcme ≠ otherOnlyPolicy "acme" := by
  have hl : staleAndLkgAcme.policy_cache.lookup ("policy_" ++ "acme")
      = some (otherOnlyPolicy "acme", 0) := by
    simp +decide [staleAndLkgAcme, List.lookup]
  have hmiss : freshCached staleAndLkgAcme 360000 ("policy_" ++ "acme") = none := by
    rw [freshCached, hl]
    dsimp only
    rw [if_neg (by norm_num : ¬ ((360000 : ℚ) - 0) / 3600 < 24)]
  refine ⟨?_, by simp +decide [staleAndLkgAcme, List.lookup], by decide⟩
  exact (fallback_ordering remoteFail ArtifactState.missing confluenceBreaker
      staleAndLkgAcme 360000 "acme" hmiss rfl).1
    (otherOnlyPolicy "acme") 0 hl (by norm_num)

/-! ## Claim C4 -/

/-- Claim C4 counterexample: a syntactically valid Safe Mode artifact
with an empty `categories` list makes `get_policy` return a `PolicyData`
with no categories at all — `_load_fallback_policy_from_config` never
checks the data-model invariant, so not every returned policy satisfies
it. -/
theorem safe_mode_breaks_invariant_cex :
    (get_policy remoteFail emptyCatArtifact confluenceBreaker emptyCache 0 "acme" true).result
      = Except.ok emptyCatPolicy ∧
    ¬ policyInvariant emptyCatPolicy :=
  ⟨by decide, by decide⟩

/-- Claim C4 amended: on the fetch, stale and last-known-good paths the
invariant does hold — a successful fetch synthesizes `Other` so its
categories are non-empty and contain the default, and the cache tiers
only replay such results — but the Safe Mode loader gives no such
guarantee, so the invariant is conditional on the loader not being
reached (here: a last-known-good entry exists, or the index fetch
succeeds). -/
theorem resolve_invariant_outside_safe_mode (remote : Remote) (art : ArtifactState)
    (b : Breaker) (s : CacheState) (now : ℚ) (tid : String)
    (hpc : ∀ e ∈ s.policy_cache, policyInvariant e.2.1)
    (hlkg : ∀ e ∈ s.last_known_good, policyInvariant e.2)
    (hno : (∃ d, s.last_known_good.lookup ("policy_" ++ tid) = some d) ∨
           (∃ rows, remote.index = Except.ok rows)) :
    ∀ p, (get_policy remote art b s now tid true).result = Except.ok p → policyInvariant p := by
  intro p hp
  cases hf : freshCached s now ("policy_" ++ tid) with
  | some d =>
    rw [get_policy_fresh remote art b s now tid true d hf] at hp
    obtain rfl : d = p := by injection hp
    obtain ⟨ts, hl⟩ := freshCached_some s now ("policy_" ++ tid) d hf
    exact hpc ("policy_" ++ tid, (d, ts)) (lookup_mem ("policy_" ++ tid) (d, ts) _ hl)
  | none =>
    cases hidx : remote.index with
    | ok rows =>
      rw [get_policy_fetchok remote art b s now tid true rows hf hidx] at hp
      obtain rfl :
          ({ company_id := tid, effective_date := "2024-01-01",
             categories := ensureOther (buildCategories remote rows),
             default_category := "Other", cache_ttl := 86400 } : PolicyData) = p := by
        injection hp
      exact ⟨ensureOther_ne_nil _, other_mem_ensureOther _⟩
    | error e =>
      rw [get_policy_fetchfail remote art b s now tid true hf hidx] at hp
      rw [fallbackChain] at hp
      split at hp
      · rename_i d2 ts hpl
        split at hp
        · obtain rfl : d2 = p := by injection hp
          exact hpc ("policy_" ++ tid, (d2, ts)) (lookup_mem ("policy_" ++ tid) (d2, ts) _ hpl)
        · rcases hno with ⟨d, hlk⟩ | ⟨rows, hrows⟩
          · simp only [lkgOrSafe, hlk] at hp
            obtain rfl : d = p := by simpa using hp
            exact hlkg ("policy_" ++ tid, d) (lookup_mem ("policy_" ++ tid) d _ hlk)
          · rw [hrows] at hidx
            cases hidx
      · rcases hno with ⟨d, hlk⟩ | ⟨rows, hrows⟩
        · simp only [lkgOrSafe, hlk] at hp
          obtain rfl : d = p := by simpa using hp
          exact hlkg ("policy_" ++ tid, d) (lookup_mem ("policy_" ++ tid) d _ hlk)
        · rw [hrows] at hidx
          cases hidx

/-- Witness for the amended claim C4: both tiers of `staleAndLkgAcme`
hold invariant-satisfying entries and a last-known-good entry exists, so
the stale-path result satisfies the invariant. -/
theorem resolve_invariant_outside_safe_mode_witness :
    policyInvariant (otherOnlyPolicy "acme") ∧
    (get_policy remoteFail ArtifactState.missing confluenceBreaker
        staleAndLkgAcme 360000 "acme" true).result = Except.ok (otherOnlyPolicy "acme") := by
  have hl : staleAndLkgAcme.policy_cache.lookup ("policy_" ++ "acme")
      = some (otherOnlyPolicy "acme", 0) := by
    simp +decide [staleAndLkgAcme, List.lookup]
  have hmiss : freshCached staleAndLkgAcme 360000 ("policy_" ++ "acme") = none := by
    rw [freshCached, hl]
    dsimp only
    rw [if_neg (by norm_num : ¬ ((360000 : ℚ) - 0) / 3600 < 24)]
  have hres : (get_policy remoteFail ArtifactState.missing confluenceBreaker
      staleAndLkgAcme 360000 "acme" true).result = Except.ok (otherOnlyPolicy "acme") := by
    rw [get_policy_fetchfail remoteFail ArtifactState.missing confluenceBreaker
      staleAndLkgAcme 360000 "acme" true hmiss rfl]
    rw [fallbackChain_stale ArtifactState.missing staleAndLkgAcme 360000
      ("policy_" ++ "acme") "acme" true (otherOnlyPolicy "acme") 0 hl (by norm_num)]
  refine ⟨?_, hres⟩
  exact resolve_invariant_outside_safe_mode remoteFail ArtifactState.missing
    confluenceBreaker staleAndLkgAcme 360000 "acme"
    (by decide) (by decide)
    (Or.inl ⟨lkgPolicyAcme, by simp +decide [staleAndLkgAcme, List.lookup]⟩)
    (otherOnlyPolicy "acme") hres

/-! ## Claim C7 -/

/-- Claim C7: once the fallback chain is exhausted, a missing Safe Mode
artifact raises `FileNotFoundError` and a corrupt one the `ValueError`
wrapping the JSON decode error, and either error propagates out of
`get_policy` as a hard failure — no empty or default policy is
substituted. -/
theorem safe_mode_load_errors_propagate (remote : Remote) (b : Breaker)
    (s : CacheState) (now : ℚ) (tid : String)
    (hidx : remote.index = Except.error ())
    (hstale : staleMiss s now ("policy_" ++ tid))
    (hlkg : s.last_known_good.lookup ("policy_" ++ tid) = none) :
    (get_policy remote ArtifactState.missing b s now tid true).result
      = Except.error ResolveErr.fileNotFound ∧
    (get_policy remote ArtifactState.corrupt b s now tid true).result
      = Except.error ResolveErr.invalidJson := by
  have hmiss := staleMiss_freshNone s now ("policy_" ++ tid) hstale
  constructor
  · rw [get_policy_fetchfail remote ArtifactState.missing b s now tid true hmiss hidx]
    rw [fallbackChain_safe ArtifactState.missing s now ("policy_" ++ tid) tid true hstale hlkg]
    rfl
  · rw [get_policy_fetchfail remote ArtifactState.corrupt b s now tid true hmiss hidx]
    rw [fallbackChain_safe ArtifactState.corrupt s now ("policy_" ++ tid) tid true hstale hlkg]
    rfl

/-- Witness for claim C7 on a cold cache. -/
theorem safe_mode_load_errors_propagate_witness :
    (get_policy remoteFail ArtifactState.missing confluenceBreaker emptyCache 0 "acme" true).result
      = Except.error ResolveErr.fileNotFound ∧
    (get_policy remoteFail ArtifactState.corrupt confluenceBreaker emptyCache 0 "acme" true).result
      = Except.error ResolveErr.invalidJson :=
  safe_mode_load_errors_propagate remoteFail confluenceBreaker emptyCache 0 "acme" rfl
    (by intro d ts h; simp [emptyCache, List.lookup] at h) rfl

/-! ## Claim C8 -/

/-- Claim C8: a Safe-Mode-produced result carries `cache_ttl = 0`,
leaves both cache tiers untouched, and the very next `get_policy` call
for the tenant — whatever the remote then does — starts with an outbound
index fetch instead of reusing the Safe Mode result. -/
theorem safe_mode_result_not_cached (remote remote2 : Remote) (art : ArtifactState)
    (b b2 : Breaker) (s : CacheState) (now now2 : ℚ) (tid : String) (p : PolicyData)
    (hidx : remote.index = Except.error ())
    (hstale : staleMiss s now ("policy_" ++ tid))
    (hlkg : s.last_known_good.lookup ("policy_" ++ tid) = none)
    (hload : loadFallbackPolicy art tid = Except.ok p)
    (hmono : now ≤ now2) :
    (get_policy remote art b s now tid true).result = Except.ok p ∧
    p.cache_ttl = 0 ∧
    (get_policy remote art b s now tid true).state = s ∧
    (get_policy remote2 art b2 s now2 tid true).calls.head? = some CallEvent.policyIndex := by
  have hmiss := staleMiss_freshNone s now ("policy_" ++ tid) hstale
  have heval := get_policy_fetchfail remote art b s now tid true hmiss hidx
  have hchain := fallbackChain_safe art s now ("policy_" ++ tid) tid true hstale hlkg
  refine ⟨?_, loadFallback_ttl0 art tid p hload, ?_, ?_⟩
  · rw [heval, hchain]
    exact hload
  · rw [heval]
  · have hmiss2 := staleMiss_mono s now now2 ("policy_" ++ tid) hstale hmono
    simp only [get_policy, hmiss2]
    cases hidx2 : remote2.index with
    | error e => rfl
    | ok rows =>
      dsimp only
      cases hv : validatePolicyData (ensureOther (buildCategories remote2 rows)) with
      | error e => rfl
      | ok w => rfl

/-- Witness for claim C8: cold cache, valid single-category artifact,
probe again 60 seconds later. -/
theorem safe_mode_result_not_cached_witness :
    (get_policy remoteFail goodArtifact confluenceBreaker emptyCache 0 "acme" true).result
      = Except.ok safeModePolicyAcme ∧
    safeModePolicyAcme.cache_ttl = 0 ∧
    (get_policy remoteFail goodArtifact confluenceBreaker emptyCache 0 "acme" true).state
      = emptyCache ∧
    (get_policy remoteFail goodArtifact confluenceBreaker emptyCache 60 "acme" true).calls.head?
      = some CallEvent.policyIndex :=
  safe_mode_result_not_cached remoteFail remoteFail goodArtifact confluenceBreaker
    confluenceBreaker emptyCache 0 60 "acme" safeModePolicyAcme rfl
    (by intro d ts h; simp [emptyCache, List.lookup] at h) rfl (by decide) (by norm_num)

/-! ## Claim C9 -/

/-- Claim C9 counterexample: the cache write of a successful fetch is a
plain overwrite.  Writing `(lkgPolicyAcme, 1000)` over the stored
`(otherOnlyPolicy "acme", 2000)` leaves the slot holding the entry with
the older timestamp — no max-timestamp-wins comparison happens. -/
theorem cache_write_drops_newer_cex :
    (storeFetchResult (storeFetchResult emptyCache "policy_acme" (otherOnlyPolicy "acme") 2000)
        "policy_acme" lkgPolicyAcme 1000).policy_cache.lookup "policy_acme"
      = some (lkgPolicyAcme, 1000) ∧
    (1000 : ℚ) < 2000 ∧ lkgPolicyAcme ≠ otherOnlyPolicy "acme" :=
  ⟨by decide, by norm_num, by decide⟩

/-- Claim C9 amended: the writer stores `(policy, now)` into the fresh
slot and `policy` into last-known-good unconditionally — last writer
wins by completion order, with no comparison against the stored
`fetched_at`. -/
theorem cache_write_unconditional (s : CacheState) (key : String) (p : PolicyData) (now : ℚ) :
    (storeFetchResult s key p now).policy_cache.lookup key = some (p, now) ∧
    (storeFetchResult s key p now).last_known_good.lookup key = some p :=
  ⟨lookup_dictSet s.policy_cache key (p, now), lookup_dictSet s.last_known_good key p⟩

/-! ## Claim C10 -/

/-- Claim C10: the synthesized `Other` category makes the list passed to
`_validate_policy_data` non-empty, so its empty-list `ValueError` is
unreachable from `get_policy`; an index round that yields no usable
category row therefore succeeds, returning — and writing to both cache
tiers — a policy whose only category is the synthesized `Other`. -/
theorem other_guard_makes_empty_index_succeed (remote : Remote) (art : ArtifactState)
    (b : Breaker) (s : CacheState) (now : ℚ) (tid : String) (rows : List IndexRow)
    (hmiss : freshCached s now ("policy_" ++ tid) = none)
    (hidx : remote.index = Except.ok rows)
    (hzero : buildCategories remote rows = []) :
    (∀ cs e, validatePolicyData (ensureOther cs) ≠ Except.error e) ∧
    (get_policy remote art b s now tid true).result = Except.ok (otherOnlyPolicy tid) ∧
    (get_policy remote art b s now tid true).state.policy_cache.lookup ("policy_" ++ tid)
      = some (otherOnlyPolicy tid, now) ∧
    (get_policy remote art b s now tid true).state.last_known_good.lookup ("policy_" ++ tid)
      = some (otherOnlyPolicy tid) := by
  have heval := get_policy_fetchok remote art b s now tid true rows hmiss hidx
  rw [hzero] at heval
  have hpol : ensureOther [] = [otherCategory] := by decide
  rw [hpol] at heval
  refine ⟨?_, ?_, ?_, ?_⟩
  · intro cs e hcon
    obtain ⟨w, hw⟩ := validate_ensureOther_ok cs
    rw [hw] at hcon
    cases hcon
  · rw [heval]
    rfl
  · rw [heval]
    exact lookup_dictSet s.policy_cache ("policy_" ++ tid) (otherOnlyPolicy tid, now)
  · rw [heval]
    exact lookup_dictSet s.last_known_good ("policy_" ++ tid) (otherOnlyPolicy tid)

/-- Witness for claim C10: an index that parses to zero rows on a cold
cache. -/
theorem other_guard_makes_empty_index_succeed_witness :
    (get_policy remoteOkEmpty ArtifactState.missing confluenceBreaker emptyCache 0 "acme" true).result
      = Except.ok (otherOnlyPolicy "acme") ∧
    (get_policy remoteOkEmpty ArtifactState.missing confluenceBreaker emptyCache 0 "acme" true).state.policy_cache.lookup
        ("policy_" ++ "acme") = some (otherOnlyPolicy "acme", 0) := by
  have h := other_guard_makes_empty_index_succeed remoteOkEmpty ArtifactState.missing
    confluenceBreaker emptyCache 0 "acme" [] rfl rfl rfl
  exact ⟨h.2.1, h.2.2.1⟩
